import Mathlib

/-!
Verification of `import_communal_payments.py`
(module `ImportCommunalPaymentsService` and the `CommunalPayment` dataclass).

The Python source is shallowly embedded below.  Conventions:

* A cell of a raw row is a dynamic Python value: a string, a
  `datetime.datetime`, an `int`, or `None` (the value kinds the csv reader
  and openpyxl deliver to `build_payment`).
* A raised Python exception is modelled as the error side of `Except` or as
  a `crash` field: `Err` covers the `ImportPaymentException` hierarchy of
  the module plus uncaught interpreter errors (`PyExc`).
* The external database is a `Store` value threaded explicitly; Django's
  `objects.get` is a first-match lookup (emails and account numbers are
  unique keys in the backing store), `update_or_create` is `updateOrCreate`
  below.  `transaction.atomic` is modelled by returning the entry store on
  a crash inside the block.
* The byte-level readers `get_data_from_cvs` / `get_data_from_xlsx` are
  abstracted: a file value carries the list of raw rows the reader would
  return.  Reader-internal failures are out of scope here; the extension
  dispatch of `import_data_from_file` is modelled exactly.
* Failures of the external collaborators (database writes, the
  `PaymentsEmailService` calls) are injected through Boolean oracles, so
  that transactional behaviour can be stated for every failure pattern.
* String operations are implemented structurally over `List Char` so that
  every definition evaluates by kernel reduction.
-/

set_option autoImplicit false

/-- Python whitespace for `str.strip` (ASCII part; exotic unicode spaces
are out of scope). -/
def pyIsSpace (c : Char) : Bool :=
  c == ' ' || c == '\t' || c == '\n' || c == '\r' || c == '\x0b' || c == '\x0c'

/-- `str.strip()`: drop leading and trailing whitespace. -/
def listStrip (cs : List Char) : List Char :=
  ((cs.dropWhile pyIsSpace).reverse.dropWhile pyIsSpace).reverse

/-- Split a character list on a separator character, keeping empty pieces
(the semantics of Python's `str.split(sep)` and of `String.splitOn` for a
one-character separator). -/
def listSplit (sep : Char) : List Char → List (List Char)
  | [] => [[]]
  | c :: cs =>
      let r := listSplit sep cs
      if c == sep then [] :: r
      else
        match r with
        | [] => [[c]]
        | h :: t => (c :: h) :: t

/-- `str.strip()` on a `String`. -/
def pyStrip (s : String) : String := String.mk (listStrip s.data)

/-- `str.lower()` (ASCII). -/
def pyLower (s : String) : String := String.mk (s.data.map Char.toLower)

/-- `str.replace(",", ".")`: the pattern is a single character, so this is
a character map. -/
def commaToDot (s : String) : String :=
  String.mk (s.data.map fun c => if c == ',' then '.' else c)

/-- A calendar date (the payload of a Python `datetime.datetime`; the
time-of-day component, always midnight for `strptime("%d-%m-%Y")` results,
is elided). -/
structure DateV where
  year : Nat
  month : Nat
  day : Nat
deriving DecidableEq, Repr

/-- A dynamic Python value sitting in one cell of a raw row. -/
inductive Cell where
  | str (s : String)
  | dt (d : DateV)
  | int (n : Int)
  | none
deriving DecidableEq, Repr

/-- Decimal digit string of a natural number (structural; `fuel` bounds the
recursion and is taken large enough for any input). -/
def natDigits (fuel n : Nat) : List Char :=
  match fuel with
  | 0 => []
  | fuel + 1 =>
      if n < 10 then [Char.ofNat (48 + n)]
      else natDigits fuel (n / 10) ++ [Char.ofNat (48 + n % 10)]

/-- Python `str()` of an integer. -/
def pyIntStr (n : Int) : String :=
  if n < 0 then String.mk ('-' :: natDigits n.natAbs n.natAbs)
  else String.mk (natDigits (n.natAbs + 1) n.natAbs)

/-- Left-pad a digit string with zeros to a given width. -/
def padZero (w : Nat) (cs : List Char) : List Char :=
  List.replicate (w - cs.length) '0' ++ cs

/-- Python `str()` of a cell value. -/
def pyStr : Cell → String
  | .str s => s
  | .dt d =>
      String.mk (padZero 4 (natDigits (d.year + 1) d.year) ++ '-' ::
        padZero 2 (natDigits (d.month + 1) d.month) ++ '-' ::
        padZero 2 (natDigits (d.day + 1) d.day)) ++ " 00:00:00"
  | .int n => pyIntStr n
  | .none => "None"

/-- The Python type name of a cell value, as it appears in an
`AttributeError` message. -/
def pyTypeName : Cell → String
  | .str _ => "str"
  | .dt _ => "datetime.datetime"
  | .int _ => "int"
  | .none => "NoneType"

/-- Gregorian leap-year rule (as used by `datetime`). -/
def isLeap (y : Nat) : Bool :=
  (y % 4 == 0 && y % 100 != 0) || y % 400 == 0

/-- Days in a month, Gregorian calendar (as validated by `datetime`). -/
def daysInMonth (m y : Nat) : Nat :=
  if m == 2 then (if isLeap y then 29 else 28)
  else if m == 4 || m == 6 || m == 9 || m == 11 then 30
  else 31

/-- Digit-string value: `some` its value when the list is nonempty and all
ASCII digits. -/
def digitsVal : List Char → Option Nat
  | [] => Option.none
  | cs =>
      if cs.all Char.isDigit then
        some (cs.foldl (fun a c => a * 10 + (c.toNat - 48)) 0)
      else Option.none

/-- `datetime.datetime.strptime(s, "%d-%m-%Y")`: day and month are one or
two digits with value at least 1 (Python's `_strptime` regex rejects `0`
and `00`), the year is exactly four digits, the whole string must be
consumed, and the resulting date must be a real calendar date with
`year >= MINYEAR = 1`.  Returns `none` where Python raises `ValueError`. -/
def pyStrptimeDMY (s : String) : Option DateV :=
  match listSplit '-' s.data with
  | [ds, ms, ys] =>
      match digitsVal ds, digitsVal ms, digitsVal ys with
      | some d, some m, some y =>
          if (ds.length == 1 || ds.length == 2) && 1 ≤ d && d ≤ 31 &&
             (ms.length == 1 || ms.length == 2) && 1 ≤ m && m ≤ 12 &&
             ys.length == 4 && 1 ≤ y && d ≤ daysInMonth m y
          then some ⟨y, m, d⟩ else none
      | _, _, _ => Option.none
  | _ => none

/-- A Python `decimal.Decimal` value, abstracted to its numeric content:
a finite number is a sign, an integer coefficient and a decimal exponent
(`num false 1250 (-2)` is `Decimal("12.50")`); the special values carry
their sign respectively payload. -/
inductive Dec where
  | num (neg : Bool) (coeff : Nat) (exp : Int)
  | inf (neg : Bool)
  | nan (signaling : Bool) (payload : Option Nat)
deriving DecidableEq, Repr

/-- Split a character list at the first `e`/`E` (exponent marker of the
decimal numeric-string grammar). -/
def splitAtExpMarker : List Char → (List Char × Option (List Char))
  | [] => ([], Option.none)
  | c :: cs =>
      if c == 'e' || c == 'E' then ([], some cs)
      else
        let (m, e) := splitAtExpMarker cs
        (c :: m, e)

/-- Optional leading sign of a numeric string. -/
def takeSign : List Char → (Bool × List Char)
  | '-' :: cs => (true, cs)
  | '+' :: cs => (false, cs)
  | cs => (false, cs)

/-- Exponent part: optional sign then nonempty digits. -/
def expVal (cs : List Char) : Option Int :=
  let (neg, rest) := takeSign cs
  match digitsVal rest with
  | some n => some (if neg then -(n : Int) else (n : Int))
  | Option.none => Option.none

/-- Mantissa `digits [. [digits]]` with at least one digit overall:
coefficient digits and the implied exponent shift. -/
def mantissaVal (cs : List Char) : Option (Nat × Int) :=
  match listSplit '.' cs with
  | [ip] => (digitsVal ip).map fun n => (n, (0 : Int))
  | [ip, fp] =>
      (digitsVal (ip ++ fp)).map fun n => (n, -(fp.length : Int))
  | _ => Option.none

/-- `decimal.Decimal(s)` on a string argument: leading/trailing whitespace
and underscores throughout are removed, then the decimal numeric-string
grammar applies — `[sign] (digits [. digits] [exponent] | Inf | Infinity |
NaN [digits] | sNaN [digits])`, case-insensitive.  Returns `none` where
Python raises `InvalidOperation` (a `DecimalException`). -/
def pyDecimalParse (s : String) : Option Dec :=
  let cs := (listStrip s.data).filter (fun c => c != '_')
  let (neg, body) := takeSign cs
  let lower := body.map Char.toLower
  if lower == "inf".data || lower == "infinity".data then some (.inf neg)
  else if lower.take 4 == "snan".data then
    match body.drop 4 with
    | [] => some (.nan true Option.none)
    | ds => (digitsVal ds).map fun n => .nan true (some n)
  else if lower.take 3 == "nan".data then
    match body.drop 3 with
    | [] => some (.nan false Option.none)
    | ds => (digitsVal ds).map fun n => .nan false (some n)
  else
    let (mant, ex) := splitAtExpMarker body
    match mantissaVal mant with
    | Option.none => Option.none
    | some (c, sh) =>
        match ex with
        | Option.none => some (.num neg c sh)
        | some es =>
            match expVal es with
            | some e => some (.num neg c (e + sh))
            | Option.none => Option.none

example : pyDecimalParse "12.50" = some (.num false 1250 (-2)) := by decide
example : pyDecimalParse "abc" = Option.none := by decide
example : pyDecimalParse "-3" = some (.num true 3 0) := by decide
example : pyDecimalParse "12." = some (.num false 12 0) := by decide
example : pyStrptimeDMY "01-01-2001" = some ⟨2001, 1, 1⟩ := by decide
example : pyStrptimeDMY "2001-01-01" = Option.none := by decide
example : pyStrptimeDMY "31-02-2001" = Option.none := by decide
example : pyStrptimeDMY "29-02-2004" = some ⟨2004, 2, 29⟩ := by decide
example : pyStr (.int (-5)) = "-5" := by decide
example : pyStr (.dt ⟨2001, 1, 1⟩) = "2001-01-01 00:00:00" := by decide
example : commaToDot (pyStrip (pyStr (.str " 12,50 "))) = "12.50" := by decide

/-- A row of the `accounts.User` table (only the column the importer
reads). -/
structure UserRec where
  id : Nat
  email : String
deriving DecidableEq, Repr

/-- A row of the `buildings.Apartment` table: its account number and the
resident ids of its lodgers (`apartment.lodgers.all()`, each exposing a
`resident`). -/
structure ApartmentRec where
  id : Nat
  account_number : String
  lodgers : List Nat
deriving DecidableEq, Repr

/-- A `payments.Currency` row. -/
structure CurrencyRec where
  code : String
deriving DecidableEq, Repr

/-- A persisted `payments.CommunalPayment` row.  Foreign keys are stored as
ids; `update_or_create` compares them by primary key. -/
structure PaymentRow where
  payerId : Nat
  apartmentId : Nat
  date : DateV
  ext_number : String
  currencyCode : String
  price : Dec
  description : String
deriving DecidableEq, Repr

/-- The external database visible to the importer. -/
structure Store where
  users : List UserRec
  apartments : List ApartmentRec
  payments : List PaymentRow
deriving DecidableEq, Repr

/-- An exception escaping the service uncaught: `NameError` from reading an
unbound local, `AttributeError` from calling `.strip()` on a non-string,
and injected collaborator failures (database write, email send). -/
inductive PyExc where
  | nameError (name : String)
  | attributeError (msg : String)
  | dbError (msg : String)
  | emailError (msg : String)
deriving DecidableEq, Repr

/-- The error values the importer handles: the three classes of the
`ImportPaymentException` hierarchy (`importError` is the base class
itself), plus `pyError` for exceptions outside that hierarchy, which the
row loop's `except ImportPaymentException` does not catch. -/
inductive Err where
  | importError (msg : String)
  | fileTypeError (msg : String)
  | parseFileError (msg : String)
  | pyError (e : PyExc)
deriving DecidableEq, Repr

/-- Whether `except ImportPaymentException` catches this error. -/
def Err.catchable : Err → Bool
  | .pyError _ => false
  | _ => true

/-- The `CommunalPayment` dataclass after `__post_init__` ran: `payer` and
`apartment` hold the resolved rows. -/
structure CommunalPayment where
  email : String
  payer : UserRec
  account_number : String
  apartment : ApartmentRec
  date : DateV
  ext_number : String
  price : Dec
  building : String
  description : String
  currency : CurrencyRec
deriving DecidableEq, Repr

/-- `CommunalPayment.get_payer_by_email`: `User.objects.get(email=...)`,
raising `ImportPaymentException` when no user matches. -/
def getPayerByEmail (store : Store) (email : String) : Except Err UserRec :=
  match store.users.find? (fun u => u.email == email) with
  | some u => .ok u
  | Option.none =>
      .error (.importError ("Payer by email = " ++ email ++ " not found"))

/-- `CommunalPayment.get_apartment_by_account`:
`Apartment.objects.get(account_number=...)`, raising
`ImportPaymentException` when no apartment matches. -/
def getApartmentByAccount (store : Store) (account_number : String) :
    Except Err ApartmentRec :=
  match store.apartments.find? (fun a => a.account_number == account_number) with
  | some a => .ok a
  | Option.none =>
      .error (.importError
        ("Apartment by account number #" ++ account_number ++ " not found"))

/-- Construction of a `CommunalPayment`, including `__post_init__`: the
payer is resolved first, then the apartment; a failed resolution raises,
so no value is produced. -/
def communalPaymentMk (store : Store) (email account_number : String)
    (date : DateV) (ext_number : String) (price : Dec)
    (building description : String) (currency : CurrencyRec) :
    Except Err CommunalPayment :=
  match getPayerByEmail store email with
  | .error e => .error e
  | .ok payer =>
      match getApartmentByAccount store account_number with
      | .error e => .error e
      | .ok apartment =>
          .ok ⟨email, payer, account_number, apartment, date, ext_number,
               price, building, description, currency⟩

/-- The `CommunalPayment` row that persisting the dataclass produces. -/
def mkRow (p : CommunalPayment) : PaymentRow :=
  ⟨p.payer.id, p.apartment.id, p.date, p.ext_number, p.currency.code,
   p.price, p.description⟩

/-- The `update_or_create` lookup filter: payer, apartment, date and
ext_number all equal. -/
def keyMatch (r : PaymentRow) (p : CommunalPayment) : Bool :=
  r.payerId == p.payer.id && r.apartmentId == p.apartment.id &&
    r.date == p.date && r.ext_number == p.ext_number

/-- One `update_or_create`: the first row matching the composite key gets
its `defaults` columns (`currency`, `price`, `description`) overwritten in
place; with no match a fresh row is appended.  Returns the affected row
and the updated table, like Django returns the object. -/
def upsertRows : List PaymentRow → CommunalPayment → PaymentRow × List PaymentRow
  | [], p => (mkRow p, [mkRow p])
  | r :: rest, p =>
      if keyMatch r p then
        ({ r with currencyCode := p.currency.code, price := p.price,
                  description := p.description },
         { r with currencyCode := p.currency.code, price := p.price,
                  description := p.description } :: rest)
      else
        let (row, rest26) := upsertRows rest p
        (row, r :: rest26)

/-- `CommunalPayment.save_payment`: `update_or_create` on the payments
table. -/
def updateOrCreate (st : Store) (p : CommunalPayment) : PaymentRow × Store :=
  let (row, rows) := upsertRows st.payments p
  (row, { st with payments := rows })

/-- The lodger residents of the apartment a payment row points at
(`payment.apartment.lodgers.all()`, taking each lodger's `resident`). -/
def lodgersFor (st : Store) (aid : Nat) : List Nat :=
  match st.apartments.find? (fun a => a.id == aid) with
  | some a => a.lodgers
  | Option.none => []

/-- One outbound `PaymentsEmailService` call. -/
inductive Notif where
  | toPayer (p : PaymentRow)
  | toLodger (p : PaymentRow) (resident : Nat)
deriving DecidableEq, Repr

/-- The first loop of `save_payments`: persist every accumulated payment in
order, collecting the created/updated rows; `pFail` injects a database
failure at the given payment index, which raises out of the loop. -/
def persistLoop (st : Store) (idx : Nat) (pFail : Nat → Bool) :
    List CommunalPayment → Except PyExc (Store × List PaymentRow)
  | [] => .ok (st, [])
  | p :: rest =>
      if pFail idx then .error (.dbError "could not save payment")
      else
        let (row, st26) := updateOrCreate st p
        match persistLoop st26 (idx + 1) pFail rest with
        | .ok (stf, rows) => .ok (stf, row :: rows)
        | .error e => .error e

/-- The inner lodger loop of `save_payments`: emails already handed to the
email service before a failure stay sent, hence the partial list is
returned together with the failure. -/
def notifyLodgers (row : PaymentRow) (jdx kdx : Nat)
    (nlFail : Nat → Nat → Bool) : List Nat → List Notif × Option PyExc
  | [] => ([], Option.none)
  | r :: rest =>
      if nlFail jdx kdx then ([], some (.emailError "lodger email failed"))
      else
        let (ns, c) := notifyLodgers row jdx (kdx + 1) nlFail rest
        (.toLodger row r :: ns, c)

/-- The second loop of `save_payments`: for each persisted row, the payer
notification then one notification per lodger of the row's apartment,
read from the post-persist store state. -/
def notifyLoop (st : Store) (jdx : Nat) (npFail : Nat → Bool)
    (nlFail : Nat → Nat → Bool) : List PaymentRow → List Notif × Option PyExc
  | [] => ([], Option.none)
  | row :: rest =>
      if npFail jdx then ([], some (.emailError "payer email failed"))
      else
        let (ns1, c1) := notifyLodgers row jdx 0 nlFail (lodgersFor st row.apartmentId)
        match c1 with
        | some e => (.toPayer row :: ns1, some e)
        | Option.none =>
            let (ns2, c2) := notifyLoop st (jdx + 1) npFail nlFail rest
            (.toPayer row :: ns1 ++ ns2, c2)

/-- Outcome of `save_payments`: the store after the transaction block, the
emails that were handed to the email service, and the exception escaping
the block, if any. -/
structure SaveResult where
  store : Store
  notifs : List Notif
  crash : Option PyExc
deriving DecidableEq, Repr

/-- `ImportCommunalPaymentsService.save_payments`.  Both loops run inside
`with transaction.atomic()`: an exception anywhere in the block rolls the
store back to its state at entry and propagates; the database changes
become visible only when the block is left normally.  Emails already sent
are an external side effect and are not undone by the rollback. -/
def savePayments (store : Store) (payments : List CommunalPayment)
    (pFail : Nat → Bool) (npFail : Nat → Bool) (nlFail : Nat → Nat → Bool) :
    SaveResult :=
  match persistLoop store 0 pFail payments with
  | .error e => ⟨store, [], some e⟩
  | .ok (st26, rows) =>
      let (ns, c) := notifyLoop st26 0 npFail nlFail rows
      match c with
      | some e => ⟨store, ns, some e⟩
      | Option.none => ⟨st26, ns, Option.none⟩

/-- The date-cell step of `build_payment`:
`isinstance(date, datetime.datetime)` keeps the value; otherwise the code
calls `date.strip().lower()` directly — on a string this trims and
lowercases before `strptime("%d-%m-%Y")`, with `ValueError` turned into a
`ParseFileError` interpolating the original cell; on any other value the
attribute access itself raises `AttributeError`, which no handler in the
service catches. -/
def parseDateCell (c : Cell) : Except Err DateV :=
  match c with
  | .dt d => .ok d
  | .str s =>
      match pyStrptimeDMY (pyLower (pyStrip s)) with
      | some d => .ok d
      | Option.none =>
          .error (.parseFileError
            ("Invalid month value format: got=" ++ s ++ " expected='01-01-2001'"))
  | c => .error (.pyError (.attributeError
      ("'" ++ pyTypeName c ++ "' object has no attribute 'strip'")))

/-- `line[j]` for the guarded accesses of `build_payment` (a named
wrapper, so rewriting does not unfold the list indexing). -/
def cellAt (line : List Cell) (j : Nat) : Cell := line.getD j .none

/-- The price string `build_payment` derives from the price cell (column
7): `str(...)`, `.strip()`, `.replace(",", ".")`. -/
def priceStrOf (line : List Cell) : String :=
  commaToDot (pyStrip (pyStr (cellAt line 7)))

/-- The email argument of the constructor call: column 5, stringified,
stripped, lowercased. -/
def emailOf (line : List Cell) : String :=
  pyLower (pyStrip (pyStr (cellAt line 5)))

/-- The account-number argument: column 4, stringified, stripped. -/
def accountOf (line : List Cell) : String :=
  pyStrip (pyStr (cellAt line 4))

/-- The ext_number argument: column 0, stringified, stripped, lowercased. -/
def extNumberOf (line : List Cell) : String :=
  pyLower (pyStrip (pyStr (cellAt line 0)))

/-- The building argument: column 2, stringified, stripped, lowercased. -/
def buildingOf (line : List Cell) : String :=
  pyLower (pyStrip (pyStr (cellAt line 2)))

/-- The description argument: column 6, stringified, stripped,
lowercased. -/
def descriptionOf (line : List Cell) : String :=
  pyLower (pyStrip (pyStr (cellAt line 6)))

/-- `ImportCommunalPaymentsService.build_payment` for row `line` at 1-based
line number `i`: column count, price, date, then `CommunalPayment`
construction (which resolves payer and apartment). -/
def buildPayment (store : Store) (currency : CurrencyRec) (line : List Cell)
    (i : Nat) : Except Err CommunalPayment :=
  if line.length ≠ 8 then
    .error (.parseFileError
      ("Invalid number of columns: line=" ++ pyIntStr i ++ " got=" ++
       pyIntStr line.length ++ " expected=8"))
  else
    match pyDecimalParse (priceStrOf line) with
    | Option.none =>
        .error (.parseFileError
          ("Invalid price value format: got=" ++ priceStrOf line ++
           " expected='00.00'"))
    | some price =>
        match parseDateCell (cellAt line 1) with
        | .error e => .error e
        | .ok date =>
            communalPaymentMk store (emailOf line) (accountOf line) date
              (extNumberOf line) price (buildingOf line) (descriptionOf line)
              currency

/-- The service state `import_data_from_file` leaves behind: the
accumulated payments and errors, and the exception escaping the method
uncaught, if any. -/
structure ImportState where
  payments : List CommunalPayment
  errors : List Err
  crash : Option PyExc
deriving DecidableEq, Repr

/-- The row loop of `import_data_from_file`: `enumerate(data, 1)`, skip
line numbers below `start_row = 2`, build each payment; a caught
`ImportPaymentException` is appended to the error list and the loop
continues, any other exception escapes. -/
def processRows (store : Store) (currency : CurrencyRec) :
    List (List Cell) → Nat → ImportState → ImportState
  | [], _, st => st
  | line :: rest, i, st =>
      if i < 2 then processRows store currency rest (i + 1) st
      else
        match buildPayment store currency line i with
        | .ok p =>
            processRows store currency rest (i + 1)
              { st with payments := st.payments ++ [p] }
        | .error (.pyError ex) => { st with crash := some ex }
        | .error e =>
            processRows store currency rest (i + 1)
              { st with errors := st.errors ++ [e] }

/-- The file argument of the service: a filesystem path, an
`InMemoryUploadedFile` (both carrying the raw rows their reader would
produce), or any other object. -/
inductive FileRef where
  | path (name : String) (rows : List (List Cell))
  | mem (name : String) (rows : List (List Cell))
  | other
deriving Repr

/-- `self.file.split(".")[-1].lower()`: the lowercased last dot-segment of
the file name. -/
def extOf (name : String) : String :=
  pyLower (String.mk ((listSplit '.' name.data).getLastD []))

/-- The message of the `FileTypeError` recorded on an unknown extension:
`func[ext]` raises `KeyError(ext)`, whose `str()` is the repr of the key,
and `FileTypeError(e)` carries it. -/
def keyErrMsg (ext : String) : String := "'" ++ ext ++ "'"

/-- `ImportCommunalPaymentsService.import_data_from_file`.  For a path or
in-memory file the reader is chosen from the extension dict; a `KeyError`
is caught and recorded as one `FileTypeError`, ending the method before
any row is read.  For any other file object the `else` branch merely
constructs a `ValueError` without raising it, so nothing is recorded and
the subsequent `for i, line in enumerate(data, 1)` reads the never-bound
local `data`, raising an uncaught `NameError`. -/
def importDataFromFile (store : Store) (currency : CurrencyRec)
    (file : FileRef) : ImportState :=
  match file with
  | .path name rows | .mem name rows =>
      let ext := extOf name
      if ext == "csv" || ext == "xlsx" then
        processRows store currency rows 1 ⟨[], [], Option.none⟩
      else
        ⟨[], [Err.fileTypeError (keyErrMsg ext)], Option.none⟩
  | .other => ⟨[], [], some (.nameError "data")⟩

/-- Outcome of `ImportCommunalPaymentsService.run`: the store after the
run, the emails sent, the value `run` returns (`errors`) when it returns,
the accumulated payments, and the exception escaping `run`, if any. -/
structure RunResult where
  store : Store
  notifs : List Notif
  errors : List Err
  payments : List CommunalPayment
  crash : Option PyExc
deriving DecidableEq, Repr

/-- `ImportCommunalPaymentsService.run`: `import_data_from_file`, then
`save_payments`, then return `self.errors`.  An exception escaping the
first phase skips the persist phase entirely. -/
def runService (file : FileRef) (store : Store) (currency : CurrencyRec)
    (pFail : Nat → Bool) (npFail : Nat → Bool)
    (nlFail : Nat → Nat → Bool) : RunResult :=
  let st := importDataFromFile store currency file
  match st.crash with
  | some e => ⟨store, [], st.errors, st.payments, some e⟩
  | Option.none =>
      let sr := savePayments store st.payments pFail npFail nlFail
      ⟨sr.store, sr.notifs, st.errors, st.payments, sr.crash⟩

/-- Decidable equality on `Except`, for evaluating results concretely. -/
instance exceptDecEq {ε α : Type} [DecidableEq ε] [DecidableEq α] :
    DecidableEq (Except ε α)
  | .ok a, .ok b =>
      if h : a = b then .isTrue (by rw [h])
      else .isFalse (by intro he; cases he; exact h rfl)
  | .error a, .error b =>
      if h : a = b then .isTrue (by rw [h])
      else .isFalse (by intro he; cases he; exact h rfl)
  | .ok _, .error _ => .isFalse (by intro he; cases he)
  | .error _, .ok _ => .isFalse (by intro he; cases he)

/-! Concrete fixtures used by witnesses and counterexamples. -/

/-- A store with one payer, one apartment (two lodgers) and no payments. -/
def store1 : Store := ⟨[⟨1, "a@b.c"⟩], [⟨1, "acc1", [7, 8]⟩], []⟩

/-- The configured default currency. -/
def cur1 : CurrencyRec := ⟨"eur"⟩

/-- A fully valid raw row for `store1`. -/
def okRow : List Cell :=
  [.str "N1", .str "01-01-2001", .str "B", .str "Apt", .str "acc1",
   .str " A@b.c ", .str "Desc", .str "12,50"]

/-- A header row (always skipped). -/
def hdrRow : List Cell :=
  [.str "n", .str "date", .str "b", .str "a", .str "acc", .str "email",
   .str "d", .str "price"]

/-- No injected database failures. -/
def noFail : Nat → Bool := fun _ => false

/-- No injected email failures. -/
def noFail2 : Nat → Nat → Bool := fun _ _ => false

/-- The persisted row `okRow` produces. -/
def okPaymentRow : PaymentRow :=
  ⟨1, 1, ⟨2001, 1, 1⟩, "n1", "eur", .num false 1250 (-2), "desc"⟩

example :
    (buildPayment store1 cur1 okRow 2).map mkRow = .ok okPaymentRow := by decide

example :
    runService (.path "f.csv" [hdrRow, okRow]) store1 cur1 noFail noFail noFail2 =
      ⟨⟨store1.users, store1.apartments, [okPaymentRow]⟩,
       [.toPayer okPaymentRow, .toLodger okPaymentRow 7, .toLodger okPaymentRow 8],
       [], (importDataFromFile store1 cur1 (.path "f.csv" [hdrRow, okRow])).payments,
       Option.none⟩ := by decide

/-- The store after upserting a batch of payments in order (the committed
state of a fully successful persist phase). -/
def upsertAll (st : Store) : List CommunalPayment → Store
  | [] => st
  | p :: rest => upsertAll (updateOrCreate st p).2 rest

/-- The rows `created_payments` collects during a fully successful persist
phase. -/
def rowsOf (st : Store) : List CommunalPayment → List PaymentRow
  | [] => []
  | p :: rest => (updateOrCreate st p).1 :: rowsOf (updateOrCreate st p).2 rest

/-- The notification sequence of a fully successful notify phase: for each
persisted row in order, the payer notification then one notification per
lodger of the row's apartment. -/
def expectedNotifs (st : Store) : List PaymentRow → List Notif
  | [] => []
  | row :: rest =>
      .toPayer row :: ((lodgersFor st row.apartmentId).map (Notif.toLodger row) ++
        expectedNotifs st rest)

theorem keyMatch_mkRow (p : CommunalPayment) : keyMatch (mkRow p) p = true := by
  simp [keyMatch, mkRow]

theorem keyMatch_update (r : PaymentRow) (p q : CommunalPayment) :
    keyMatch { r with currencyCode := q.currency.code, price := q.price,
                      description := q.description } p = keyMatch r p := rfl

theorem update_eq_mkRow {r : PaymentRow} {p : CommunalPayment}
    (h : keyMatch r p = true) :
    { r with currencyCode := p.currency.code, price := p.price,
             description := p.description } = mkRow p := by
  cases r
  simp only [keyMatch, Bool.and_eq_true, beq_iff_eq] at h
  obtain ⟨⟨⟨h1, h2⟩, h3⟩, h4⟩ := h
  simp [mkRow, h1, h2, h3, h4]

theorem upsertRows_fst (rows : List PaymentRow) (p : CommunalPayment) :
    (upsertRows rows p).1 = mkRow p := by
  induction rows with
  | nil => rfl
  | cons r rest ih =>
      by_cases hk : keyMatch r p
      · simp [upsertRows, hk, update_eq_mkRow hk]
      · simp [upsertRows, hk, ih]

theorem upsertRows_length (rows : List PaymentRow) (p : CommunalPayment) :
    ((upsertRows rows p).2).length =
      Bool.rec (rows.length + 1) rows.length (rows.any (fun r => keyMatch r p)) := by
  induction rows with
  | nil => simp [upsertRows]
  | cons r rest ih =>
      by_cases hk : keyMatch r p
      · simp only [upsertRows, hk, if_true, List.any_cons, Bool.true_or,
          List.length_cons]
      · have hk26 : keyMatch r p = false := by simpa using hk
        simp only [upsertRows, hk26, Bool.false_eq_true, if_false,
          List.any_cons, Bool.false_or, List.length_cons, ih]
        cases rest.any (fun r => keyMatch r p) <;> rfl

theorem upsertRows_find (rows : List PaymentRow) (p : CommunalPayment) :
    ((upsertRows rows p).2).find? (fun r => keyMatch r p) = some (mkRow p) := by
  induction rows with
  | nil => simp [upsertRows, List.find?, keyMatch_mkRow]
  | cons r rest ih =>
      by_cases hk : keyMatch r p
      · simp [upsertRows, hk, List.find?, update_eq_mkRow hk, keyMatch_mkRow]
      · simp [upsertRows, hk, List.find?, ih]

theorem upsertRows_idem (rows : List PaymentRow) (p : CommunalPayment) :
    upsertRows ((upsertRows rows p).2) p = (mkRow p, (upsertRows rows p).2) := by
  induction rows with
  | nil =>
      simp [upsertRows, keyMatch_mkRow, update_eq_mkRow (keyMatch_mkRow p)]
  | cons r rest ih =>
      by_cases hk : keyMatch r p
      · have hu := update_eq_mkRow hk
        simp [upsertRows, hk, hu, keyMatch_mkRow,
          update_eq_mkRow (keyMatch_mkRow p)]
      · simp [upsertRows, hk, ih]

theorem persistLoop_noFail (payments : List CommunalPayment) :
    ∀ (st : Store) (idx : Nat),
      persistLoop st idx (fun _ => false) payments =
        .ok (upsertAll st payments, rowsOf st payments) := by
  induction payments with
  | nil => intro st idx; rfl
  | cons p rest ih =>
      intro st idx
      simp [persistLoop, upsertAll, rowsOf, ih]

theorem notifyLodgers_noFail (residents : List Nat) (row : PaymentRow)
    (jdx : Nat) : ∀ kdx : Nat,
      notifyLodgers row jdx kdx (fun _ _ => false) residents =
        (residents.map (Notif.toLodger row), Option.none) := by
  induction residents with
  | nil => intro kdx; rfl
  | cons r rest ih => intro kdx; simp [notifyLodgers, ih]

theorem notifyLoop_noFail (st : Store) (rows : List PaymentRow) :
    ∀ jdx : Nat,
      notifyLoop st jdx (fun _ => false) (fun _ _ => false) rows =
        (expectedNotifs st rows, Option.none) := by
  induction rows with
  | nil => intro jdx; rfl
  | cons row rest ih =>
      intro jdx
      simp [notifyLoop, expectedNotifs, notifyLodgers_noFail, ih]

theorem savePayments_noFail (store : Store) (payments : List CommunalPayment) :
    savePayments store payments (fun _ => false) (fun _ => false)
        (fun _ _ => false) =
      ⟨upsertAll store payments,
       expectedNotifs (upsertAll store payments) (rowsOf store payments),
       Option.none⟩ := by
  simp [savePayments, persistLoop_noFail, notifyLoop_noFail]

theorem savePayments_persistErr {store : Store} {payments : List CommunalPayment}
    {pFail npFail : Nat → Bool} {nlFail : Nat → Nat → Bool} {e : PyExc}
    (h : persistLoop store 0 pFail payments = .error e) :
    savePayments store payments pFail npFail nlFail = ⟨store, [], some e⟩ := by
  simp [savePayments, h]

theorem savePayments_notifyErr {store st2 : Store}
    {payments : List CommunalPayment} {rows : List PaymentRow}
    {pFail npFail : Nat → Bool} {nlFail : Nat → Nat → Bool}
    {ns : List Notif} {e : PyExc}
    (h1 : persistLoop store 0 pFail payments = .ok (st2, rows))
    (h2 : notifyLoop st2 0 npFail nlFail rows = (ns, some e)) :
    savePayments store payments pFail npFail nlFail = ⟨store, ns, some e⟩ := by
  simp [savePayments, h1, h2]

/-- A `CommunalPayment` as `okRow` constructs it over `store1`. -/
def pay1 : CommunalPayment :=
  ⟨"a@b.c", ⟨1, "a@b.c"⟩, "acc1", ⟨1, "acc1", [7, 8]⟩, ⟨2001, 1, 1⟩, "n1",
   .num false 1250 (-2), "b", "desc", cur1⟩

/-- `store1` with `okPaymentRow` already persisted (the state after
`okRow` was imported once). -/
def store2fix : Store := ⟨[⟨1, "a@b.c"⟩], [⟨1, "acc1", [7, 8]⟩], [okPaymentRow]⟩

/-- Every injected operation fails. -/
def allFail : Nat → Bool := fun _ => true

/-- `okRow` with an email no user has. -/
def badEmailRow : List Cell :=
  [.str "N1", .str "01-01-2001", .str "B", .str "Apt", .str "acc1",
   .str "x@y.z", .str "Desc", .str "12,50"]

/-- `okRow` with an account number no apartment has. -/
def badAcctRow : List Cell :=
  [.str "N1", .str "01-01-2001", .str "B", .str "Apt", .str "zzz",
   .str "a@b.c", .str "Desc", .str "12,50"]

/-- `okRow` with an integer in the date column (as a numeric spreadsheet
cell yields). -/
def intDateRow : List Cell :=
  [.str "N1", .int 42, .str "B", .str "Apt", .str "acc1",
   .str "a@b.c", .str "Desc", .str "12.50"]

example : buildPayment store1 cur1 okRow 2 = .ok pay1 := by decide

/-- C7: for every input file (path or in-memory) whose extension — the
lowercased last dot-segment of the name — is neither `csv` nor `xlsx`,
`run` returns exactly one fatal `FileTypeError` (wrapping the `KeyError`),
zero row-level errors, zero accumulated payments, leaves the store
unchanged, sends no notifications, processes no rows, and raises
nothing. -/
theorem c7_unsupported_extension (name : String) (rows : List (List Cell))
    (store : Store) (cur : CurrencyRec) (pf np : Nat → Bool)
    (nl : Nat → Nat → Bool)
    (h1 : extOf name ≠ "csv") (h2 : extOf name ≠ "xlsx") :
    runService (.path name rows) store cur pf np nl =
      ⟨store, [], [.fileTypeError (keyErrMsg (extOf name))], [], Option.none⟩ ∧
    runService (.mem name rows) store cur pf np nl =
      ⟨store, [], [.fileTypeError (keyErrMsg (extOf name))], [], Option.none⟩ := by
  have hb : (extOf name == "csv" || extOf name == "xlsx") = false := by
    simp [h1, h2]
  constructor <;>
    simp [runService, importDataFromFile, hb, savePayments, persistLoop,
      notifyLoop]

/-- C7 witness: a `.TXT` path (case-insensitively unsupported). -/
theorem c7_unsupported_extension_witness :
    runService (.path "a.TXT" [okRow]) store1 cur1 noFail noFail noFail2 =
      ⟨store1, [], [.fileTypeError (keyErrMsg (extOf "a.TXT"))], [],
       Option.none⟩ ∧
    runService (.mem "a.TXT" [okRow]) store1 cur1 noFail noFail noFail2 =
      ⟨store1, [], [.fileTypeError (keyErrMsg (extOf "a.TXT"))], [],
       Option.none⟩ :=
  c7_unsupported_extension "a.TXT" [okRow] store1 cur1 noFail noFail noFail2
    (by decide) (by decide)

/-- C8: persisting is an upsert on the composite key
{payer, apartment, date, ext_number}: when a row with the key exists the
table size is unchanged (when none exists one row is appended), re-running
the same payment is a no-op on the whole store, and after an upsert the
key's row carries the payment's currency, price and description. -/
theorem c8_upsert_idempotent (st : Store) (p : CommunalPayment) :
    ((st.payments.any (fun r => keyMatch r p) = true →
        ((updateOrCreate st p).2).payments.length = st.payments.length) ∧
     (st.payments.any (fun r => keyMatch r p) = false →
        ((updateOrCreate st p).2).payments.length = st.payments.length + 1)) ∧
    updateOrCreate (updateOrCreate st p).2 p = (mkRow p, (updateOrCreate st p).2) ∧
    ((updateOrCreate st p).2).payments.find? (fun r => keyMatch r p) =
      some (mkRow p) := by
  refine ⟨⟨fun h => ?_, fun h => ?_⟩, ?_, ?_⟩
  · simp only [updateOrCreate]
    rw [upsertRows_length, h]
  · simp only [updateOrCreate]
    rw [upsertRows_length, h]
  · simp [updateOrCreate, upsertRows_idem]
  · simp [updateOrCreate, upsertRows_find]

/-- C8 witness: re-importing `okRow`'s payment over a store already holding
its row keeps the row count at one. -/
theorem c8_upsert_idempotent_witness :
    store2fix.payments.any (fun r => keyMatch r pay1) = true ∧
    ((updateOrCreate store2fix pay1).2).payments.length =
      store2fix.payments.length :=
  ⟨by decide, (c8_upsert_idempotent store2fix pay1).1.1 (by decide)⟩

/-- C9: the persist phase is atomic — a database failure while saving any
record makes `save_payments` raise with the store exactly as it was at
entry (no partial writes, no notifications), while an injected-failure-free
persist phase upserts every accumulated record in order. -/
theorem c9_persist_atomicity (store : Store) (ps : List CommunalPayment)
    (pf np : Nat → Bool) (nl : Nat → Nat → Bool) (e : PyExc) :
    (persistLoop store 0 pf ps = .error e →
      savePayments store ps pf np nl = ⟨store, [], some e⟩) ∧
    persistLoop store 0 (fun _ => false) ps =
      .ok (upsertAll store ps, rowsOf store ps) :=
  ⟨fun h => savePayments_persistErr h, persistLoop_noFail ps store 0⟩

/-- C9 witness: a failing save of the only record leaves `store1`
untouched. -/
theorem c9_persist_atomicity_witness :
    savePayments store1 [pay1] allFail noFail noFail2 =
      ⟨store1, [], some (.dbError "could not save payment")⟩ :=
  (c9_persist_atomicity store1 [pay1] allFail noFail noFail2
    (.dbError "could not save payment")).1 (by decide)

/-- C10: for a file object that is neither a string path nor an in-memory
uploaded file, the `else` branch of `import_data_from_file` builds a
`ValueError` without raising it — so no `FileTypeError` is recorded and no
error is appended at all — and the row loop then reads the never-assigned
local `data`, so `run` dies with an uncaught `NameError` before the persist
phase, leaving the store untouched. -/
theorem c10_other_file_unbound_data (store : Store) (cur : CurrencyRec)
    (pf np : Nat → Bool) (nl : Nat → Nat → Bool) :
    importDataFromFile store cur .other =
      ⟨[], [], some (.nameError "data")⟩ ∧
    runService .other store cur pf np nl =
      ⟨store, [], [], [], some (.nameError "data")⟩ :=
  ⟨rfl, rfl⟩

/-- C1 counterexample: the notification loop runs inside
`transaction.atomic()`, before the commit.  On a run over `store1` where
every save succeeds and only the payer notification fails, the record that
was upserted is gone afterwards — the store is back to `store1` — while
the identical run with working notifications does persist it.  So a
notification failure does roll back the persisted records, refuting the
claim as stated. -/
theorem c1_notify_failure_rolls_back_cex :
    (runService (.path "f.csv" [hdrRow, okRow]) store1 cur1 noFail allFail
        noFail2).store = store1 ∧
    (runService (.path "f.csv" [hdrRow, okRow]) store1 cur1 noFail allFail
        noFail2).crash = some (.emailError "payer email failed") ∧
    (runService (.path "f.csv" [hdrRow, okRow]) store1 cur1 noFail noFail
        noFail2).store.payments = [okPaymentRow] := by
  refine ⟨by decide, by decide, by decide⟩

/-- C1 (amended): the notification phase happens inside the persist
transaction, after all records are upserted but before the commit: a
notification failure raises out of the atomic block, rolling the store
back to its entry state (emails already handed off stay sent); only a run
in which persistence and every notification succeed commits the upserted
records, with the payer notified before that record's lodgers, record by
record in order. -/
theorem c1_notifications_inside_transaction (store : Store)
    (ps : List CommunalPayment) (np : Nat → Bool) (nl : Nat → Nat → Bool)
    (ns : List Notif) (e : PyExc) :
    (notifyLoop (upsertAll store ps) 0 np nl (rowsOf store ps) =
        (ns, some e) →
      savePayments store ps (fun _ => false) np nl = ⟨store, ns, some e⟩) ∧
    savePayments store ps (fun _ => false) (fun _ => false)
        (fun _ _ => false) =
      ⟨upsertAll store ps,
       expectedNotifs (upsertAll store ps) (rowsOf store ps),
       Option.none⟩ :=
  ⟨fun h => savePayments_notifyErr (persistLoop_noFail ps store 0) h,
   savePayments_noFail store ps⟩

/-- C1 witness: with all saves succeeding and the payer notification
failing, `save_payments` raises and the store stays `store1`. -/
theorem c1_notifications_inside_transaction_witness :
    savePayments store1 [pay1] (fun _ => false) allFail noFail2 =
      ⟨store1, [], some (.emailError "payer email failed")⟩ :=
  (c1_notifications_inside_transaction store1 [pay1] allFail noFail2 []
    (.emailError "payer email failed")).1 (by decide)

theorem communalPaymentMk_ok_fields {store : Store} {email acc : String}
    {date : DateV} {ext : String} {price : Dec} {bld desc : String}
    {cur : CurrencyRec} {p : CommunalPayment}
    (h : communalPaymentMk store email acc date ext price bld desc cur = .ok p) :
    p.email = email ∧ p.account_number = acc ∧
    store.users.find? (fun u => u.email == email) = some p.payer ∧
    store.apartments.find? (fun a => a.account_number == acc) =
      some p.apartment ∧
    p.date = date ∧ p.ext_number = ext ∧ p.price = price ∧
    p.building = bld ∧ p.description = desc ∧ p.currency = cur := by
  cases hf : store.users.find? (fun u => u.email == email) with
  | none => simp [communalPaymentMk, getPayerByEmail, hf] at h
  | some u =>
      cases ha : store.apartments.find? (fun a => a.account_number == acc) with
      | none =>
          simp [communalPaymentMk, getPayerByEmail, getApartmentByAccount,
            hf, ha] at h
      | some a =>
          simp only [communalPaymentMk, getPayerByEmail,
            getApartmentByAccount, hf, ha, Except.ok.injEq] at h
          subst h
          exact ⟨rfl, rfl, rfl, rfl, rfl, rfl, rfl, rfl, rfl, rfl⟩

theorem buildPayment_ok_elim {store : Store} {cur : CurrencyRec}
    {line : List Cell} {i : Nat} {p : CommunalPayment}
    (h : buildPayment store cur line i = .ok p) :
    ∃ d dt, line.length = 8 ∧ pyDecimalParse (priceStrOf line) = some d ∧
      parseDateCell (cellAt line 1) = .ok dt ∧
      communalPaymentMk store (emailOf line) (accountOf line) dt
        (extNumberOf line) d (buildingOf line) (descriptionOf line) cur =
        .ok p := by
  unfold buildPayment at h
  split at h
  next => exact absurd h (by simp)
  next h8 =>
    split at h
    next hp => exact absurd h (by simp)
    next d hp =>
      split at h
      next e hd => exact absurd h (by simp)
      next dt hd => exact ⟨d, dt, not_not.mp h8, hp, hd, h⟩

theorem buildPayment_col {store : Store} {cur : CurrencyRec}
    {line : List Cell} {i : Nat} (h8 : line.length ≠ 8) :
    buildPayment store cur line i = .error (.parseFileError
      ("Invalid number of columns: line=" ++ pyIntStr i ++ " got=" ++
       pyIntStr line.length ++ " expected=8")) := by
  unfold buildPayment
  rw [if_pos h8]

theorem buildPayment_price {store : Store} {cur : CurrencyRec}
    {line : List Cell} {i : Nat} (h8 : line.length = 8)
    (hp : pyDecimalParse (priceStrOf line) = Option.none) :
    buildPayment store cur line i = .error (.parseFileError
      ("Invalid price value format: got=" ++ priceStrOf line ++
       " expected='00.00'")) := by
  unfold buildPayment
  rw [if_neg (by simp [h8]), hp]

theorem buildPayment_date {store : Store} {cur : CurrencyRec}
    {line : List Cell} {i : Nat} {d : Dec} {e : Err} (h8 : line.length = 8)
    (hp : pyDecimalParse (priceStrOf line) = some d)
    (hd : parseDateCell (cellAt line 1) = .error e) :
    buildPayment store cur line i = .error e := by
  unfold buildPayment
  rw [if_neg (by simp [h8]), hp, hd]

theorem buildPayment_mk {store : Store} {cur : CurrencyRec}
    {line : List Cell} {i : Nat} {d : Dec} {dt : DateV}
    (h8 : line.length = 8)
    (hp : pyDecimalParse (priceStrOf line) = some d)
    (hd : parseDateCell (cellAt line 1) = .ok dt) :
    buildPayment store cur line i =
      communalPaymentMk store (emailOf line) (accountOf line) dt
        (extNumberOf line) d (buildingOf line) (descriptionOf line) cur := by
  unfold buildPayment
  rw [if_neg (by simp [h8]), hp, hd]

theorem communalPaymentMk_emailErr {store : Store} {email acc : String}
    {date : DateV} {ext : String} {price : Dec} {bld desc : String}
    {cur : CurrencyRec}
    (hf : store.users.find? (fun u => u.email == email) = Option.none) :
    communalPaymentMk store email acc date ext price bld desc cur =
      .error (.importError ("Payer by email = " ++ email ++ " not found")) := by
  unfold communalPaymentMk getPayerByEmail
  rw [hf]

theorem communalPaymentMk_acctErr {store : Store} {email acc : String}
    {date : DateV} {ext : String} {price : Dec} {bld desc : String}
    {cur : CurrencyRec} {u : UserRec}
    (hf : store.users.find? (fun u => u.email == email) = some u)
    (ha : store.apartments.find? (fun a => a.account_number == acc) =
      Option.none) :
    communalPaymentMk store email acc date ext price bld desc cur =
      .error (.importError
        ("Apartment by account number #" ++ acc ++ " not found")) := by
  unfold communalPaymentMk getPayerByEmail getApartmentByAccount
  rw [hf, ha]

/-- C3: `build_payment` validates in a fixed order with the first failure
winning and exactly one error per rejected row: column count (citing
expected and actual counts and the line number), then price parse, then
date parse, then — inside record construction — payer resolution, then
apartment resolution; a row with valid price and date but an unknown payer
or apartment fails at construction, after steps 1–3 passed. -/
theorem c3_validation_order (store : Store) (cur : CurrencyRec)
    (line : List Cell) (i : Nat) :
    (line.length ≠ 8 →
      buildPayment store cur line i = .error (.parseFileError
        ("Invalid number of columns: line=" ++ pyIntStr i ++ " got=" ++
         pyIntStr line.length ++ " expected=8"))) ∧
    (line.length = 8 → pyDecimalParse (priceStrOf line) = Option.none →
      buildPayment store cur line i = .error (.parseFileError
        ("Invalid price value format: got=" ++ priceStrOf line ++
         " expected='00.00'"))) ∧
    (∀ d e, line.length = 8 → pyDecimalParse (priceStrOf line) = some d →
      parseDateCell (cellAt line 1) = .error e →
      buildPayment store cur line i = .error e) ∧
    (∀ d dt, line.length = 8 → pyDecimalParse (priceStrOf line) = some d →
      parseDateCell (cellAt line 1) = .ok dt →
      store.users.find? (fun u => u.email == emailOf line) = Option.none →
      buildPayment store cur line i = .error (.importError
        ("Payer by email = " ++ emailOf line ++ " not found"))) ∧
    (∀ d dt u, line.length = 8 → pyDecimalParse (priceStrOf line) = some d →
      parseDateCell (cellAt line 1) = .ok dt →
      store.users.find? (fun u => u.email == emailOf line) = some u →
      store.apartments.find?
        (fun a => a.account_number == accountOf line) = Option.none →
      buildPayment store cur line i = .error (.importError
        ("Apartment by account number #" ++ accountOf line ++
         " not found"))) := by
  refine ⟨fun h8 => buildPayment_col h8,
    fun h8 hp => buildPayment_price h8 hp,
    fun d e h8 hp hd => buildPayment_date h8 hp hd,
    fun d dt h8 hp hd hf => ?_,
    fun d dt u h8 hp hd hf ha => ?_⟩
  · rw [buildPayment_mk h8 hp hd]
    exact communalPaymentMk_emailErr hf
  · rw [buildPayment_mk h8 hp hd]
    exact communalPaymentMk_acctErr hf ha

/-- C3 witness: a row valid through steps 1–3 with an unknown account
number fails at construction with the apartment error. -/
theorem c3_validation_order_witness :
    buildPayment store1 cur1 badAcctRow 2 = .error (.importError
      ("Apartment by account number #" ++ accountOf badAcctRow ++
       " not found")) :=
  (c3_validation_order store1 cur1 badAcctRow 2).2.2.2.2 (.num false 1250 (-2))
    ⟨2001, 1, 1⟩ ⟨1, "a@b.c"⟩ (by decide) (by decide) (by decide) (by decide)
    (by decide)

/-- C4: a `CommunalPayment` value only exists when both references
resolved — on success the payer is exactly the store's user whose email
equals the trimmed, lowercased email cell and the apartment the store's
apartment whose account number equals the trimmed account cell — and an
unresolved reference makes construction fail with an
`ImportPaymentException` naming the offending email or account number,
yielding no value. -/
theorem c4_construction_requires_resolution (store : Store)
    (email acc : String) (date : DateV) (ext : String) (price : Dec)
    (bld desc : String) (cur : CurrencyRec) (p : CommunalPayment)
    (cur2 : CurrencyRec) (line : List Cell) (i : Nat) :
    (communalPaymentMk store email acc date ext price bld desc cur = .ok p →
      store.users.find? (fun u => u.email == email) = some p.payer ∧
      store.apartments.find? (fun a => a.account_number == acc) =
        some p.apartment) ∧
    (store.users.find? (fun u => u.email == email) = Option.none →
      communalPaymentMk store email acc date ext price bld desc cur =
        .error (.importError
          ("Payer by email = " ++ email ++ " not found"))) ∧
    (∀ u, store.users.find? (fun u => u.email == email) = some u →
      store.apartments.find? (fun a => a.account_number == acc) =
        Option.none →
      communalPaymentMk store email acc date ext price bld desc cur =
        .error (.importError
          ("Apartment by account number #" ++ acc ++ " not found"))) ∧
    (buildPayment store cur2 line i = .ok p →
      p.email = emailOf line ∧ p.account_number = accountOf line ∧
      store.users.find? (fun u => u.email == emailOf line) = some p.payer ∧
      store.apartments.find?
        (fun a => a.account_number == accountOf line) = some p.apartment ∧
      emailOf line = pyLower (pyStrip (pyStr (cellAt line 5))) ∧
      accountOf line = pyStrip (pyStr (cellAt line 4))) := by
  refine ⟨fun h => ?_, fun hf => communalPaymentMk_emailErr hf,
    fun u hf ha => communalPaymentMk_acctErr hf ha, fun h => ?_⟩
  · obtain ⟨_, _, hf, ha, _⟩ := communalPaymentMk_ok_fields h
    exact ⟨hf, ha⟩
  · obtain ⟨d, dt, h8, hp, hd, hmk⟩ := buildPayment_ok_elim h
    obtain ⟨he, hacc, hf, ha, _⟩ := communalPaymentMk_ok_fields hmk
    exact ⟨he, hacc, hf, ha, rfl, rfl⟩

/-- C4 witness: an unknown email over `store1` makes construction fail
with the error naming it. -/
theorem c4_construction_requires_resolution_witness :
    communalPaymentMk store1 "x@y.z" "acc1" ⟨2001, 1, 1⟩ "n1"
        (.num false 1250 (-2)) "b" "desc" cur1 =
      .error (.importError ("Payer by email = " ++ "x@y.z" ++ " not found")) :=
  (c4_construction_requires_resolution store1 "x@y.z" "acc1" ⟨2001, 1, 1⟩
    "n1" (.num false 1250 (-2)) "b" "desc" cur1 pay1 cur1 okRow 2).2.1
    (by decide)

/-- `okRow` with an unparseable price string. -/
def badPriceRow : List Cell :=
  [.str "N1", .str "01-01-2001", .str "B", .str "Apt", .str "acc1",
   .str "a@b.c", .str "Desc", .str "abc"]

/-- C5: the price cell is stringified, trimmed and commas become dots
before the exact-decimal parse, so `"12,50"` and `"12.50"` normalise to the
same string and hence the same decimal amount; a failed parse rejects the
row with a `ParseFileError` whose message carries the offending
(normalised) string and the hint `'00.00'`, and a successful parse is the
record's price. -/
theorem c5_price_parsing (store : Store) (cur : CurrencyRec)
    (line : List Cell) (i : Nat) (d : Dec) (p : CommunalPayment) :
    priceStrOf line = commaToDot (pyStrip (pyStr (cellAt line 7))) ∧
    (line.length = 8 → pyDecimalParse (priceStrOf line) = Option.none →
      buildPayment store cur line i = .error (.parseFileError
        ("Invalid price value format: got=" ++ priceStrOf line ++
         " expected='00.00'"))) ∧
    (pyDecimalParse (priceStrOf line) = some d →
      buildPayment store cur line i = .ok p → p.price = d) ∧
    (commaToDot (pyStrip "12,50") = "12.50" ∧
     commaToDot (pyStrip "12.50") = "12.50" ∧
     pyDecimalParse "12.50" = some (.num false 1250 (-2))) := by
  refine ⟨rfl, fun h8 hp => buildPayment_price h8 hp, fun hp hok => ?_,
    by decide⟩
  obtain ⟨d0, dt, h8, hp0, hd, hmk⟩ := buildPayment_ok_elim hok
  obtain ⟨_, _, _, _, _, _, hpr, _⟩ := communalPaymentMk_ok_fields hmk
  rw [hp] at hp0
  cases hp0
  exact hpr

/-- C5 witness: the price `"abc"` is rejected with the message carrying the
offending string and the `'00.00'` hint. -/
theorem c5_price_parsing_witness :
    buildPayment store1 cur1 badPriceRow 2 = .error (.parseFileError
      ("Invalid price value format: got=" ++ priceStrOf badPriceRow ++
       " expected='00.00'")) :=
  (c5_price_parsing store1 cur1 badPriceRow 2 (.num false 0 0) pay1).2.1
    (by decide) (by decide)

/-- C6 counterexample: the date cell is not stringified.  With `42` (an
integer spreadsheet cell) in the date column of an otherwise valid row,
the claim predicts a `ParseFileError` on the stringified cell, but
`build_payment` raises an uncaught `AttributeError` from `42 .strip()` —
an error outside the `ImportPaymentException` hierarchy — which escapes
the row loop and kills the run. -/
theorem c6_date_not_stringified_cex :
    buildPayment store1 cur1 intDateRow 2 = .error (.pyError
      (.attributeError "'int' object has no attribute 'strip'")) ∧
    Err.catchable (.pyError
      (.attributeError "'int' object has no attribute 'strip'")) = false ∧
    buildPayment store1 cur1 intDateRow 2 ≠ .error (.parseFileError
      "Invalid month value format: got=42 expected='01-01-2001'") ∧
    processRows store1 cur1 [hdrRow, intDateRow] 1 ⟨[], [], Option.none⟩ =
      ⟨[], [], some (.attributeError "'int' object has no attribute 'strip'")⟩ := by
  refine ⟨by decide, by decide, by decide, by decide⟩

/-- C6 (amended): a date cell that is already a `datetime.datetime` is
accepted as-is; a *string* date cell is trimmed, lowercased and parsed as
`DD-MM-YYYY` — `"01-01-2001"` gives 2001-01-01, `"2001-01-01"` is
rejected — and on parse failure a `ParseFileError` carries the original
string and the hint `'01-01-2001'`; but a non-string, non-datetime cell is
not stringified: the `.strip()` attribute access raises an uncaught
`AttributeError` (here for `int` and `None` cells), which `build_payment`
propagates. -/
theorem c6_date_parsing_amended (d : DateV) (s : String) (n : Int)
    (store : Store) (cur : CurrencyRec) (line : List Cell) (i : Nat)
    (e : Err) (dv : Dec) :
    parseDateCell (.dt d) = .ok d ∧
    (∀ d2, pyStrptimeDMY (pyLower (pyStrip s)) = some d2 →
      parseDateCell (.str s) = .ok d2) ∧
    (pyStrptimeDMY (pyLower (pyStrip s)) = Option.none →
      parseDateCell (.str s) = .error (.parseFileError
        ("Invalid month value format: got=" ++ s ++
         " expected='01-01-2001'"))) ∧
    parseDateCell (.int n) = .error (.pyError (.attributeError
      "'int' object has no attribute 'strip'")) ∧
    parseDateCell .none = .error (.pyError (.attributeError
      "'NoneType' object has no attribute 'strip'")) ∧
    pyStrptimeDMY "01-01-2001" = some ⟨2001, 1, 1⟩ ∧
    pyStrptimeDMY "2001-01-01" = Option.none ∧
    (line.length = 8 → pyDecimalParse (priceStrOf line) = some dv →
      parseDateCell (cellAt line 1) = .error e →
      buildPayment store cur line i = .error e) := by
  refine ⟨rfl, fun d2 h => ?_, fun h => ?_, rfl, rfl, by decide, by decide,
    fun h8 hp hd => buildPayment_date h8 hp hd⟩
  · simp only [parseDateCell]
    rw [h]
  · simp only [parseDateCell]
    rw [h]

/-- C6 (amended) witness: `"2001-01-01"` is in the wrong format and is
rejected with the original string and the hint. -/
theorem c6_date_parsing_amended_witness :
    parseDateCell (.str "2001-01-01") = .error (.parseFileError
      ("Invalid month value format: got=" ++ "2001-01-01" ++
       " expected='01-01-2001'")) :=
  (c6_date_parsing_amended ⟨1, 1, 1⟩ "2001-01-01" 0 store1 cur1 okRow 2
    (.importError "") (.num false 0 0)).2.2.1 (by decide)

/-- C2: a row whose parse raises an `ImportPaymentException` (any of the
hierarchy, `ParseFileError` included) has its error appended at the end of
the error list — hence row order — and the loop continues with the next
row at the next line number; a row that parses is appended to the payments
unaffected by other rows' failures, and those payments are what the
injected-failure-free persist phase upserts; `run` returns exactly the
accumulated error list whenever the import phase does not crash. -/
theorem c2_row_errors_accumulate (store : Store) (cur : CurrencyRec)
    (line : List Cell) (rest : List (List Cell)) (i : Nat) (st : ImportState)
    (e : Err) (p : CommunalPayment) (file : FileRef) (pf np : Nat → Bool)
    (nl : Nat → Nat → Bool) (ps : List CommunalPayment) :
    (2 ≤ i → buildPayment store cur line i = .error e → e.catchable = true →
      processRows store cur (line :: rest) i st =
        processRows store cur rest (i + 1)
          { st with errors := st.errors ++ [e] }) ∧
    (2 ≤ i → buildPayment store cur line i = .ok p →
      processRows store cur (line :: rest) i st =
        processRows store cur rest (i + 1)
          { st with payments := st.payments ++ [p] }) ∧
    ((importDataFromFile store cur file).crash = Option.none →
      (runService file store cur pf np nl).errors =
        (importDataFromFile store cur file).errors) ∧
    (savePayments store ps (fun _ => false) (fun _ => false)
        (fun _ _ => false)).store = upsertAll store ps := by
  refine ⟨fun hi hb hc => ?_, fun hi hb => ?_, fun h => ?_, ?_⟩
  · have h2 : ¬ i < 2 := by omega
    cases e with
    | pyError ex => simp [Err.catchable] at hc
    | importError m => simp only [processRows, h2, if_false, hb]
    | fileTypeError m => simp only [processRows, h2, if_false, hb]
    | parseFileError m => simp only [processRows, h2, if_false, hb]
  · have h2 : ¬ i < 2 := by omega
    simp only [processRows, h2, if_false, hb]
  · simp only [runService, h]
  · rw [savePayments_noFail]

/-- C2 witness: over a one-row file body the unknown-email row's error is
appended and the loop moves to the next row. -/
theorem c2_row_errors_accumulate_witness :
    processRows store1 cur1 [badEmailRow] 2 ⟨[], [], Option.none⟩ =
      processRows store1 cur1 [] 3
        ⟨[], [.importError ("Payer by email = x@y.z not found")],
         Option.none⟩ :=
  (c2_row_errors_accumulate store1 cur1 badEmailRow [] 2
    ⟨[], [], Option.none⟩
    (.importError ("Payer by email = x@y.z not found")) pay1
    (.path "" []) noFail noFail noFail2 []).1 (by decide) (by decide)
    (by decide)
